import Mathlib

set_option maxRecDepth 1000000

/-!
Verification development for the VidPros repository, concentrating on the
two numeric-scoring modules named by the specification:

* `src/confidence_scorer.py` — per-field and overall confidence scoring of
  enriched company data (`ConfidenceScorer`, `DataPoint`), and
* `src/audit_engine.py` — the sequential multi-agent audit pipeline
  (`IndustryBaselineAgent`, `SolutionArchitect`, `ROICalculator`,
  `ReportCompiler`).

Python floats are modelled as rationals (`ℚ`); Python dictionaries are
modelled as association lists in insertion order; code paths that can raise
are modelled with `Except`.  Fixed literal dictionaries that the code only
reads through `.get(key, default)` are modelled as if-then-else chains over
the same keys and values.
-/

/-- Model of a Python value as stored in the enriched-data mapping.
Dictionaries only ever flow through emptiness and `len` checks in the
scorer, so a dictionary is modelled by its entry count. -/
inductive PyVal where
  | vnone
  | vstr (s : String)
  | vnum (q : ℚ)
  | vlist (xs : List PyVal)
  | vdict (entries : Nat)

/-- Python truthiness of a modelled value. -/
def pyTruthy : PyVal → Bool
  | .vnone => false
  | .vstr s => s.length != 0
  | .vnum q => q != 0
  | .vlist xs => !xs.isEmpty
  | .vdict n => n != 0

/-- Test for the `value is None or (isinstance(value, (list, dict)) and not value)`
condition of `ConfidenceScorer._analyze_fields`. -/
def isMissing : PyVal → Bool
  | .vnone => true
  | .vlist xs => xs.isEmpty
  | .vdict n => n == 0
  | _ => false

/-- Python `len(value)`: defined for strings, lists and dictionaries, a
`TypeError` (modelled as `none`) otherwise. -/
def pyLen : PyVal → Option Nat
  | .vstr s => some s.length
  | .vlist xs => some xs.length
  | .vdict n => some n
  | _ => none

/-- Python `str(value)` as used by the `company_size` digit test.  Strings
render as themselves and integers as decimal digits; the renderings of the
remaining cases (floats with a fractional part, lists, dictionaries, None)
are approximated by digit-free placeholder text. -/
def pyStr : PyVal → String
  | .vstr s => s
  | .vnum q => if q.den == 1 then toString q.num else "float"
  | .vnone => "None"
  | .vlist _ => "list"
  | .vdict _ => "dict"

/-- Python `value != someString` for a modelled value: values of a type
other than `str` always compare unequal to a string. -/
def pyNeqStr (v : PyVal) (s : String) : Bool :=
  match v with
  | .vstr t => t != s
  | _ => true

/-- ASCII lowercase of a string, modelling the Python `str.lower()` calls
(the field names and catalog keys involved are ASCII).  Defined by
structural recursion over the character list. -/
def str_to_lower (s : String) : String := String.mk (s.toList.map Char.toLower)

/-- Substring test, modelling the Python expression `needle in hay`. -/
def strContainsSub (hay needle : String) : Bool :=
  (List.range (hay.length + 1)).any fun i => needle.toList.isPrefixOf (hay.toList.drop i)

/-- Lookup in an association list with rational values, modelling
`dict.get` on a Python dictionary (first match; Python keys are unique). -/
def lookupQ (l : List (String × ℚ)) (k : String) : Option ℚ :=
  (l.find? (fun p => p.1 == k)).map (fun p => p.2)

/-- Lookup of a field in the enriched-data mapping, modelling
`key in data` together with `data.get(key)`. -/
def lookupVal (data : List (String × PyVal)) (k : String) : Option PyVal :=
  (data.find? (fun p => p.1 == k)).map (fun p => p.2)

/-- The `DataSource` enumeration of `confidence_scorer.py`. -/
inductive DataSource where
  | DIRECT_SCRAPING
  | API_VERIFIED
  | PUBLIC_RECORDS
  | SOCIAL_MEDIA
  | NEWS_ARTICLES
  | INFERENCE
  | ESTIMATION
  | UNKNOWN
deriving DecidableEq

/-- Reliability weight attached to each `DataSource` member. -/
def DataSource.weight : DataSource → ℚ
  | .DIRECT_SCRAPING => 95/100
  | .API_VERIFIED => 90/100
  | .PUBLIC_RECORDS => 85/100
  | .SOCIAL_MEDIA => 70/100
  | .NEWS_ARTICLES => 65/100
  | .INFERENCE => 50/100
  | .ESTIMATION => 30/100
  | .UNKNOWN => 10/100

/-- Freshness multiplier of `DataPoint.calculate_confidence`, as a function
of the age of the data point in hours (`datetime.now() - collected_at`).
The seven buckets are the members of the `DataFreshness` enumeration:
under 1 hour, 1 day, 7 days, 30 days, 90 days, 365 days, and beyond. -/
def freshness_multiplier (ageHours : ℚ) : ℚ :=
  if ageHours < 1 then 1
  else if ageHours < 24 then 95/100
  else if ageHours < 24 * 7 then 85/100
  else if ageHours < 24 * 30 then 70/100
  else if ageHours < 24 * 90 then 50/100
  else if ageHours < 24 * 365 then 30/100
  else 10/100

/-- Confidence of a `DataPoint`: source reliability weight times the
freshness multiplier of its age. -/
def DataPoint.calculate_confidence (source : DataSource) (ageHours : ℚ) : ℚ :=
  source.weight * freshness_multiplier ageHours

/-- Helper: the freshness multiplier is antitone in the age. -/
theorem freshness_multiplier_antitone {a1 a2 : ℚ} (h : a1 ≤ a2) :
    freshness_multiplier a2 ≤ freshness_multiplier a1 := by
  unfold freshness_multiplier
  split_ifs <;> linarith

/-- Helper: every source reliability weight is nonnegative. -/
theorem DataSource.weight_nonneg (s : DataSource) : 0 ≤ s.weight := by
  cases s <;> norm_num [DataSource.weight]

/-- Claim C2: for a fixed data source, `DataPoint.calculate_confidence` is
monotonically non-increasing in the age of the data point: an older data
point never scores a higher confidence than a younger one. -/
theorem calculate_confidence_antitone_in_age
    (source : DataSource) (a1 a2 : ℚ) (h : a1 ≤ a2) :
    DataPoint.calculate_confidence source a2 ≤ DataPoint.calculate_confidence source a1 := by
  unfold DataPoint.calculate_confidence
  exact mul_le_mul_of_nonneg_left (freshness_multiplier_antitone h) source.weight_nonneg

/-- Witness for claim C2 at a concrete source and concrete ages
(2 hours old versus 100 hours old, scraped directly). -/
theorem calculate_confidence_antitone_in_age_witness :
    (2 : ℚ) ≤ 100 ∧
      DataPoint.calculate_confidence DataSource.DIRECT_SCRAPING 100 ≤
        DataPoint.calculate_confidence DataSource.DIRECT_SCRAPING 2 :=
  ⟨by norm_num, calculate_confidence_antitone_in_age DataSource.DIRECT_SCRAPING 2 100 (by norm_num)⟩

/-- Critical fields of `ConfidenceScorer.CRITICAL_FIELDS`. -/
def CRITICAL_FIELDS : List String :=
  ["company_name", "website", "industry", "company_size", "tech_stack", "automation_opportunities"]

/-- Field importance weights of `ConfidenceScorer.FIELD_WEIGHTS`, in
insertion order. -/
def FIELD_WEIGHTS : List (String × ℚ) :=
  [("company_name", 1), ("website", 1), ("industry", 9/10), ("company_size", 8/10),
   ("tech_stack", 9/10), ("revenue_range", 7/10), ("founded_year", 5/10), ("headquarters", 4/10),
   ("automation_opportunities", 95/100), ("digital_maturity_score", 85/100), ("growth_signals", 7/10),
   ("pain_indicators", 8/10), ("trigger_events", 6/10), ("competitors", 5/10),
   ("recent_news", 4/10), ("social_metrics", 3/10)]

/-- The `ConfidenceReport` dataclass with its default field values. -/
structure ConfidenceReport where
  overall_confidence : ℚ := 0
  data_completeness : ℚ := 0
  source_diversity : ℚ := 0
  data_freshness : ℚ := 0
  company_info_confidence : ℚ := 0
  technology_confidence : ℚ := 0
  financial_confidence : ℚ := 0
  market_confidence : ℚ := 0
  automation_confidence : ℚ := 0
  field_confidences : List (String × ℚ) := []
  missing_critical_data : List String := []
  low_confidence_fields : List String := []
  high_confidence_fields : List String := []
  confidence_warnings : List String := []
  data_improvement_suggestions : List String := []

/-- Weight application and clamp ending `_estimate_field_confidence`:
multiply by the field weight when the field is in `FIELD_WEIGHTS`, then
return `min(1.0, base_confidence)`. -/
def apply_field_weight (field_name : String) (base : ℚ) : ℚ :=
  min 1 (match lookupQ FIELD_WEIGHTS field_name with
         | some w => base * w
         | none => base)

/-- Base confidence of the `tech_stack` branch, by number of detected
technologies. -/
def tech_stack_base (xs : List PyVal) : ℚ :=
  if xs.length > 10 then 85/100 else if xs.length > 5 then 70/100 else 50/100

/-- Digit test of the `company_size` branch:
`any(num in str(value) for num in ["1","5","10","50","200","1000"])`. -/
def company_size_digit_test (v : PyVal) : Bool :=
  (["1", "5", "10", "50", "200", "1000"]).any fun d => strContainsSub (pyStr v) d

/-- Test for `isinstance(value, list)`. -/
def PyVal.isListV : PyVal → Bool
  | .vlist _ => true
  | _ => false

/-- Elements of a modelled list value (only read under `isListV`). -/
def PyVal.listElems : PyVal → List PyVal
  | .vlist xs => xs
  | _ => []

/-- Test for `isinstance(value, (int, float))`. -/
def PyVal.isNumV : PyVal → Bool
  | .vnum _ => true
  | _ => false

/-- The expression `float(value) if isinstance(value, (int, float)) else 0.5`. -/
def pyFloatOrHalf : PyVal → ℚ
  | .vnum q => q
  | _ => 5/10

/-- The `ConfidenceScorer._estimate_field_confidence` branch chain.  The
branch for field names containing the word confidence returns the numeric
value directly, bypassing both the field weight and the final clamp. -/
def estimate_field_confidence (field_name : String) (value : PyVal) : ℚ :=
  if field_name == "company_name" && pyTruthy value then
    apply_field_weight field_name (95/100)
  else if field_name == "website" && pyTruthy value then
    apply_field_weight field_name 1
  else if field_name == "tech_stack" && value.isListV then
    apply_field_weight field_name (tech_stack_base value.listElems)
  else if field_name == "industry" && pyNeqStr value "Unknown" then
    apply_field_weight field_name (75/100)
  else if field_name == "company_size" && pyNeqStr value "Unknown" then
    apply_field_weight field_name (if company_size_digit_test value then 70/100 else 40/100)
  else if field_name == "digital_maturity_score" && value.isNumV then
    apply_field_weight field_name (65/100)
  else if field_name == "automation_opportunities" && value.isListV then
    apply_field_weight field_name (if value.listElems.length > 0 then 70/100 else 5/10)
  else if strContainsSub (str_to_lower field_name) "confidence" then
    pyFloatOrHalf value
  else
    apply_field_weight field_name (5/10)

/-- Confidence assigned to one field by `_analyze_fields`: zero for a
missing or empty value, the estimate otherwise. -/
def field_confidence_value (field_name : String) (value : PyVal) : ℚ :=
  if isMissing value then 0 else estimate_field_confidence field_name value

/-- One iteration of the `_analyze_fields` loop. -/
def analyze_field_step (r : ConfidenceReport) (p : String × PyVal) : ConfidenceReport :=
  let confidence := field_confidence_value p.1 p.2
  let r :=
    if isMissing p.2 && CRITICAL_FIELDS.contains p.1 then
      { r with missing_critical_data := r.missing_critical_data ++ [p.1] }
    else r
  let r := { r with field_confidences := r.field_confidences ++ [(p.1, confidence)] }
  if confidence < 3/10 then
    { r with low_confidence_fields := r.low_confidence_fields ++ [p.1] }
  else if confidence > 7/10 then
    { r with high_confidence_fields := r.high_confidence_fields ++ [p.1] }
  else r

/-- The `_analyze_fields` loop over the enriched-data mapping in insertion
order. -/
def analyze_fields (data : List (String × PyVal)) (r : ConfidenceReport) : ConfidenceReport :=
  data.foldl analyze_field_step r

/-- Weighted average of `_average_field_confidence` over a fixed field
list, with default weight 0.5 for fields missing from `FIELD_WEIGHTS`. -/
def average_field_confidence (fields : List String) (fcs : List (String × ℚ)) : ℚ :=
  let acc := fields.foldl
    (fun (acc : ℚ × ℚ) f =>
      match lookupQ fcs f with
      | some c =>
        let w := (lookupQ FIELD_WEIGHTS f).getD (5/10)
        (acc.1 + c * w, acc.2 + w)
      | none => acc)
    (0, 0)
  if acc.2 > 0 then acc.1 / acc.2 else 0

/-- Field lists of `_calculate_category_confidences`. -/
def company_fields : List String :=
  ["company_name", "website", "industry", "company_size", "founded_year", "headquarters", "revenue_range"]

/-- Technology category fields. -/
def tech_fields : List String := ["tech_stack", "digital_maturity_score", "tech_spend_estimate"]

/-- Financial category fields. -/
def financial_fields : List String := ["revenue_range", "funding_total", "funding_stage", "tech_spend_estimate"]

/-- Market category fields. -/
def market_fields : List String := ["competitors", "recent_news", "job_postings", "social_metrics"]

/-- Automation category fields. -/
def automation_fields : List String := ["automation_opportunities", "pain_indicators", "growth_signals"]

/-- The `_calculate_category_confidences` step. -/
def calculate_category_confidences (r : ConfidenceReport) : ConfidenceReport :=
  { r with
    company_info_confidence := average_field_confidence company_fields r.field_confidences
    technology_confidence := average_field_confidence tech_fields r.field_confidences
    financial_confidence := average_field_confidence financial_fields r.field_confidences
    market_confidence := average_field_confidence market_fields r.field_confidences
    automation_confidence := average_field_confidence automation_fields r.field_confidences }

/-- The `_assess_data_quality` step.  The parameter `parseAgeDays` models
the environment of the `last_updated` branch: `datetime.fromisoformat`
followed by `datetime.now() - last_updated`, returning the age in days, or
`none` when parsing fails (the bare `except` branch).  The
`len(sources)` call raises a `TypeError` (modelled as `Except.error`) when
the `enrichment_sources` value present in the data has no length. -/
def assess_data_quality (parseAgeDays : String → Option ℚ)
    (data : List (String × PyVal)) (r : ConfidenceReport) : Except String ConfidenceReport :=
  let total_fields : ℚ := (FIELD_WEIGHTS.length : ℚ)
  let filled_fields : ℚ :=
    ((FIELD_WEIGHTS.map Prod.fst).countP fun f =>
      match lookupVal data f with
      | some v => pyTruthy v
      | none => false : ℚ)
  let r := { r with data_completeness := if total_fields > 0 then filled_fields / total_fields else 0 }
  let diversity : Except String ConfidenceReport :=
    match lookupVal data "enrichment_sources" with
    | some sources =>
      match pyLen sources with
      | some n => .ok { r with source_diversity := min 1 ((n : ℚ) / 3) }
      | none => .error "TypeError: object has no len()"
    | none => .ok { r with source_diversity := 3/10 }
  match diversity with
  | .error e => .error e
  | .ok r =>
    match lookupVal data "last_updated" with
    | some (.vstr s) =>
      match parseAgeDays s with
      | some age =>
        .ok { r with data_freshness :=
          if age < 1 then 1
          else if age < 7 then 85/100
          else if age < 30 then 70/100
          else 50/100 }
      | none => .ok { r with data_freshness := 5/10 }
    | some _ => .ok { r with data_freshness := 5/10 }
    | none => .ok { r with data_freshness := 5/10 }

/-- Warning text of the low-overall-confidence check. -/
def low_confidence_warning : String :=
  "Overall confidence is low - recommendations should be validated with additional research"

/-- Guarded append of a warning, modelling one conditional
`report.confidence_warnings.append(...)` statement. -/
def add_warning (c : Bool) (w : String) (r : ConfidenceReport) : ConfidenceReport :=
  if c then { r with confidence_warnings := r.confidence_warnings ++ [w] } else r

/-- Guarded append of an improvement suggestion, modelling one conditional
`report.data_improvement_suggestions.append(...)` statement. -/
def add_suggestion (c : Bool) (s : String) (r : ConfidenceReport) : ConfidenceReport :=
  if c then { r with data_improvement_suggestions := r.data_improvement_suggestions ++ [s] } else r

/-- The `_generate_recommendations` step, translated in order.  It reads
`report.overall_confidence`, which at its call site still holds the
dataclass default of 0. -/
def generate_recommendations (r : ConfidenceReport) : ConfidenceReport :=
  let r := add_warning (decide (r.overall_confidence < 5/10)) low_confidence_warning r
  let r := add_warning (!r.missing_critical_data.isEmpty)
    ("Missing critical data: " ++ String.intercalate ", " r.missing_critical_data) r
  let r := add_warning (decide (r.data_completeness < 5/10))
    "Less than 50% of data fields are populated" r
  let r := add_warning (decide (r.source_diversity < 5/10))
    "Limited data source diversity - consider additional enrichment" r
  let r := add_suggestion (decide (r.company_info_confidence < 7/10))
    "Enrich company information using verified business databases" r
  let r := add_suggestion (decide (r.technology_confidence < 7/10))
    "Perform deeper technology stack analysis with specialized tools" r
  let r := add_suggestion (decide (r.financial_confidence < 5/10))
    "Add financial data from public filings or business intelligence sources" r
  add_suggestion (decide (r.automation_confidence < 7/10))
    "Conduct stakeholder interviews to validate automation opportunities" r

/-- Weighted component sum of `_calculate_overall_confidence`, before
penalties and clamping. -/
def weighted_components_sum (r : ConfidenceReport) : ℚ :=
  r.company_info_confidence * 20/100 + r.technology_confidence * 25/100 +
    r.automation_confidence * 30/100 + r.data_completeness * 10/100 +
    r.source_diversity * 10/100 + r.data_freshness * 5/100

/-- The `_calculate_overall_confidence` function: weighted component sum,
the two penalty multipliers, then `min(1.0, max(0.0, weighted_sum))`. -/
def calculate_overall_confidence (r : ConfidenceReport) : ℚ :=
  let ws := weighted_components_sum r
  let ws := if !r.missing_critical_data.isEmpty then ws * 8/10 else ws
  let ws := if r.data_completeness < 3/10 then ws * 7/10 else ws
  min 1 (max 0 ws)

/-- The `score_enriched_data` pipeline: analyze fields, category
confidences, data quality, recommendations, and only then the overall
confidence. -/
def score_enriched_data (parseAgeDays : String → Option ℚ)
    (data : List (String × PyVal)) : Except String ConfidenceReport :=
  let r := analyze_fields data {}
  let r := calculate_category_confidences r
  match assess_data_quality parseAgeDays data r with
  | .error e => .error e
  | .ok r =>
    let r := generate_recommendations r
    .ok { r with overall_confidence := calculate_overall_confidence r }

/-- Extract the report of a scoring run, with the defaulted report for the
error case (used only to state concrete-input theorems compactly). -/
def report_or_default (e : Except String ConfidenceReport) : ConfidenceReport :=
  match e with
  | .ok r => r
  | .error _ => {}

/-- Environment with no parsable timestamps (used for concrete inputs that
carry no `last_updated` field). -/
def no_parse : String → Option ℚ := fun _ => none

/-- Helper: shape of a successful `score_enriched_data` run.  The returned
report is the recommendations-annotated quality report with the overall
confidence filled in last. -/
theorem score_enriched_data_ok_shape (parse : String → Option ℚ)
    (data : List (String × PyVal)) (r : ConfidenceReport)
    (h : score_enriched_data parse data = .ok r) :
    ∃ r2, assess_data_quality parse data (calculate_category_confidences (analyze_fields data {})) = .ok r2 ∧
      r = { generate_recommendations r2 with
            overall_confidence := calculate_overall_confidence (generate_recommendations r2) } := by
  simp only [score_enriched_data] at h
  cases hq : assess_data_quality parse data (calculate_category_confidences (analyze_fields data {})) with
  | error e => rw [hq] at h; cases h
  | ok r2 =>
    rw [hq] at h
    cases h
    exact ⟨r2, rfl, rfl⟩

/-- Helper: the clamp `min(1.0, max(0.0, ...))` keeps the overall
confidence inside the unit interval for every report. -/
theorem calculate_overall_confidence_mem_unit (r : ConfidenceReport) :
    0 ≤ calculate_overall_confidence r ∧ calculate_overall_confidence r ≤ 1 := by
  unfold calculate_overall_confidence
  refine ⟨le_min (by norm_num) (le_max_left 0 _), min_le_left 1 _⟩

/-- Claim C1: every report returned by `score_enriched_data` has an overall
confidence inside the closed interval from 0 to 1, for every input mapping
and every timestamp environment. -/
theorem score_enriched_data_overall_confidence_mem_unit
    (parse : String → Option ℚ) (data : List (String × PyVal)) (r : ConfidenceReport)
    (h : score_enriched_data parse data = .ok r) :
    0 ≤ r.overall_confidence ∧ r.overall_confidence ≤ 1 := by
  obtain ⟨r2, -, rfl⟩ := score_enriched_data_ok_shape parse data r h
  exact calculate_overall_confidence_mem_unit (generate_recommendations r2)

/-- Witness for claim C1 at the empty input mapping. -/
theorem score_enriched_data_overall_confidence_mem_unit_witness :
    score_enriched_data no_parse [] = .ok (report_or_default (score_enriched_data no_parse [])) ∧
      0 ≤ (report_or_default (score_enriched_data no_parse [])).overall_confidence ∧
      (report_or_default (score_enriched_data no_parse [])).overall_confidence ≤ 1 :=
  ⟨by with_unfolding_all rfl,
   score_enriched_data_overall_confidence_mem_unit no_parse []
     (report_or_default (score_enriched_data no_parse [])) (by with_unfolding_all rfl)⟩

/-- Penalty multiplier applied when critical data is missing. -/
def missing_critical_penalty (r : ConfidenceReport) : ℚ :=
  if !r.missing_critical_data.isEmpty then 8/10 else 1

/-- Penalty multiplier applied when completeness is below 30 percent. -/
def low_completeness_penalty (r : ConfidenceReport) : ℚ :=
  if r.data_completeness < 3/10 then 7/10 else 1

/-- Claim C5: the overall confidence is the weighted component sum times
the two penalty multipliers (0.8 for missing critical data, 0.7 for
completeness below 0.3), clamped to the unit interval; both multipliers
are at most 1, so for a nonnegative weighted sum the penalized overall
confidence never exceeds the unpenalized weighted sum. -/
theorem calculate_overall_confidence_penalties
    (r : ConfidenceReport) (h : 0 ≤ weighted_components_sum r) :
    calculate_overall_confidence r =
      min 1 (max 0 (weighted_components_sum r * missing_critical_penalty r * low_completeness_penalty r)) ∧
    missing_critical_penalty r ≤ 1 ∧ low_completeness_penalty r ≤ 1 ∧
    calculate_overall_confidence r ≤ weighted_components_sum r := by
  unfold calculate_overall_confidence missing_critical_penalty low_completeness_penalty
  set ws := weighted_components_sum r with hws
  split_ifs with h1 h2 h2 <;>
    refine ⟨by ring_nf, by norm_num, by norm_num,
      le_trans (min_le_right _ _) (max_le h (by linarith))⟩
/-- Witness for claim C5 at the default (all-zero) report. -/
theorem calculate_overall_confidence_penalties_witness :
    0 ≤ weighted_components_sum {} ∧
      calculate_overall_confidence {} =
        min 1 (max 0 (weighted_components_sum {} * missing_critical_penalty {} * low_completeness_penalty {})) ∧
      missing_critical_penalty {} ≤ 1 ∧ low_completeness_penalty {} ≤ 1 ∧
      calculate_overall_confidence {} ≤ weighted_components_sum {} :=
  ⟨by with_unfolding_all decide, calculate_overall_confidence_penalties {} (by with_unfolding_all decide)⟩

/-- Base value heuristic of the specification: the field-specific constant
chosen by `_estimate_field_confidence` before the field weight and clamp
are applied (the branch conditions are those of the source chain). -/
def base_value_heuristic (field_name : String) (value : PyVal) : ℚ :=
  if field_name == "company_name" && pyTruthy value then 95/100
  else if field_name == "website" && pyTruthy value then 1
  else if field_name == "tech_stack" && value.isListV then tech_stack_base value.listElems
  else if field_name == "industry" && pyNeqStr value "Unknown" then 75/100
  else if field_name == "company_size" && pyNeqStr value "Unknown" then
    (if company_size_digit_test value then 70/100 else 40/100)
  else if field_name == "digital_maturity_score" && value.isNumV then 65/100
  else if field_name == "automation_opportunities" && value.isListV then
    (if value.listElems.length > 0 then 70/100 else 5/10)
  else 5/10

/-- Field weight of the specification: the `FIELD_WEIGHTS` entry, or 1 for
fields outside the table (whose base value is left unscaled). -/
def field_weight_or_one (field_name : String) : ℚ :=
  (lookupQ FIELD_WEIGHTS field_name).getD 1

/-- Helper: applying the field weight equals multiplying by
`field_weight_or_one` and clamping. -/
theorem apply_field_weight_eq (field_name : String) (b : ℚ) :
    apply_field_weight field_name b = min 1 (b * field_weight_or_one field_name) := by
  unfold apply_field_weight field_weight_or_one
  cases h : lookupQ FIELD_WEIGHTS field_name <;> simp [h]

/-- Helper: for a field name that does not contain the word confidence,
the estimate is the clamped weighted base heuristic. -/
theorem estimate_field_confidence_eq_base_mul_weight
    (field_name : String) (value : PyVal)
    (h : strContainsSub (str_to_lower field_name) "confidence" = false) :
    estimate_field_confidence field_name value =
      min 1 (base_value_heuristic field_name value * field_weight_or_one field_name) := by
  unfold estimate_field_confidence base_value_heuristic
  simp only [h, Bool.false_eq_true, if_false]
  split_ifs <;> rw [apply_field_weight_eq]

/-- Helper: the base value heuristic always lies in the unit interval. -/
theorem base_value_heuristic_mem_unit (field_name : String) (value : PyVal) :
    0 ≤ base_value_heuristic field_name value ∧ base_value_heuristic field_name value ≤ 1 := by
  unfold base_value_heuristic tech_stack_base
  split_ifs <;> norm_num

/-- Helper: every field weight, including the default 1, lies in the unit
interval and is positive. -/
theorem field_weight_or_one_mem_unit (field_name : String) :
    0 ≤ field_weight_or_one field_name ∧ field_weight_or_one field_name ≤ 1 := by
  unfold field_weight_or_one lookupQ
  cases h : FIELD_WEIGHTS.find? (fun p => p.1 == field_name) with
  | none => simp
  | some p =>
    have hall : ∀ q ∈ FIELD_WEIGHTS, 0 ≤ q.2 ∧ q.2 ≤ 1 := by with_unfolding_all decide
    have := hall p (List.mem_of_find?_eq_some h)
    simpa using this

/-- Claim C4, amended: for every field whose name does not contain the
word confidence (case-insensitive), the per-field confidence recorded by
the scorer is the base value heuristic times the field weight (1 for
fields outside the weight table), clamped to at most 1, with missing or
empty values scoring 0; all such values lie in the unit interval.  (Fields
whose name contains the word confidence return the raw numeric value,
unweighted and unclamped, which can leave the unit interval.) -/
theorem field_confidence_value_eq_clamped_weighted_base
    (field_name : String) (value : PyVal)
    (h : strContainsSub (str_to_lower field_name) "confidence" = false) :
    field_confidence_value field_name value =
      (if isMissing value then 0
       else min 1 (base_value_heuristic field_name value * field_weight_or_one field_name)) ∧
    0 ≤ field_confidence_value field_name value ∧
    field_confidence_value field_name value ≤ 1 := by
  unfold field_confidence_value
  obtain ⟨hb0, hb1⟩ := base_value_heuristic_mem_unit field_name value
  obtain ⟨hw0, hw1⟩ := field_weight_or_one_mem_unit field_name
  by_cases hm : isMissing value = true
  · simp [hm]
  · simp only [hm, Bool.false_eq_true, if_false]
    refine ⟨estimate_field_confidence_eq_base_mul_weight field_name value h, ?_, ?_⟩
    · rw [estimate_field_confidence_eq_base_mul_weight field_name value h]
      exact le_min (by norm_num) (mul_nonneg hb0 hw0)
    · rw [estimate_field_confidence_eq_base_mul_weight field_name value h]
      exact min_le_left 1 _

/-- Witness for the amended claim C4 at the populated `website` field. -/
theorem field_confidence_value_eq_clamped_weighted_base_witness :
    strContainsSub (str_to_lower "website") "confidence" = false ∧
      (field_confidence_value "website" (PyVal.vstr "https://techcorp.com") =
        (if isMissing (PyVal.vstr "https://techcorp.com") then 0
         else min 1 (base_value_heuristic "website" (PyVal.vstr "https://techcorp.com") *
            field_weight_or_one "website")) ∧
       0 ≤ field_confidence_value "website" (PyVal.vstr "https://techcorp.com") ∧
       field_confidence_value "website" (PyVal.vstr "https://techcorp.com") ≤ 1) :=
  ⟨by with_unfolding_all decide,
   field_confidence_value_eq_clamped_weighted_base "website" (PyVal.vstr "https://techcorp.com")
     (by with_unfolding_all decide)⟩

/-- Counterexample to claim C4 as stated: a field named
`lead_confidence` holding the number 2 is recorded with confidence 2,
which exceeds 1, because the confidence-named branch bypasses both the
field weight and the clamp. -/
theorem field_confidences_can_exceed_one :
    ("lead_confidence", (2 : ℚ)) ∈
      (report_or_default (score_enriched_data no_parse [("lead_confidence", PyVal.vnum 2)])).field_confidences ∧
    ¬ ((2 : ℚ) ≤ 1) := by
  constructor
  · with_unfolding_all decide
  · norm_num

/-- Helper: one `_analyze_fields` iteration appends exactly one entry to
the per-field confidence mapping. -/
theorem analyze_field_step_field_confidences (r : ConfidenceReport) (p : String × PyVal) :
    (analyze_field_step r p).field_confidences =
      r.field_confidences ++ [(p.1, field_confidence_value p.1 p.2)] := by
  simp only [analyze_field_step]
  split_ifs <;> simp

/-- Helper: `_analyze_fields` records one confidence per input field, in
input order. -/
theorem analyze_fields_field_confidences (data : List (String × PyVal)) (r : ConfidenceReport) :
    (analyze_fields data r).field_confidences =
      r.field_confidences ++ data.map (fun p => (p.1, field_confidence_value p.1 p.2)) := by
  induction data generalizing r with
  | nil => simp [analyze_fields]
  | cons p rest ih =>
    show (analyze_fields rest (analyze_field_step r p)).field_confidences = _
    rw [ih, analyze_field_step_field_confidences]
    simp

/-- Helper: the category-confidence step leaves the per-field mapping
unchanged. -/
theorem calculate_category_confidences_field_confidences (r : ConfidenceReport) :
    (calculate_category_confidences r).field_confidences = r.field_confidences := rfl

/-- Helper: a data-quality assessment succeeds whenever any present
`enrichment_sources` value supports `len`. -/
theorem assess_data_quality_isOk (parse : String → Option ℚ)
    (data : List (String × PyVal)) (r : ConfidenceReport)
    (hlen : ∀ v, lookupVal data "enrichment_sources" = some v → (pyLen v).isSome = true) :
    (assess_data_quality parse data r).isOk = true := by
  unfold assess_data_quality
  cases hs : lookupVal data "enrichment_sources" with
  | none =>
    dsimp only
    repeat' split
    all_goals rfl
  | some v =>
    have hv := hlen v hs
    cases hl : pyLen v with
    | none => rw [hl] at hv; cases hv
    | some n =>
      simp only [hl]
      repeat' split
      all_goals rfl

/-- Helper: a successful data-quality assessment leaves the per-field
mapping unchanged. -/
theorem assess_data_quality_preserves_field_confidences (parse : String → Option ℚ)
    (data : List (String × PyVal)) (r r2 : ConfidenceReport)
    (h : assess_data_quality parse data r = .ok r2) :
    r2.field_confidences = r.field_confidences := by
  unfold assess_data_quality at h
  repeat' split at h
  all_goals first
  | (cases h; rfl)
  | cases h

/-- Helper: the recommendations step leaves the per-field mapping
unchanged. -/
theorem generate_recommendations_field_confidences (r : ConfidenceReport) :
    (generate_recommendations r).field_confidences = r.field_confidences := by
  have hw : ∀ c w r2, (add_warning c w r2).field_confidences = r2.field_confidences := by
    intro c w r2; unfold add_warning; split <;> rfl
  have hs : ∀ c s r2, (add_suggestion c s r2).field_confidences = r2.field_confidences := by
    intro c s r2; unfold add_suggestion; split <;> rfl
  simp only [generate_recommendations, hw, hs]

/-- Claim C9, amended: `score_enriched_data` returns a report (never
raises) for every input mapping in which any present `enrichment_sources`
value supports `len` (is a list, dictionary or string), and in that report
every field whose value is `None` or an empty list or dictionary is
recorded with confidence exactly 0.  (With `enrichment_sources` bound to a
value without a length, such as `None` or a number, the `len(sources)`
call raises a `TypeError` instead.) -/
theorem score_enriched_data_total_and_missing_zero
    (parse : String → Option ℚ) (data : List (String × PyVal))
    (hlen : ∀ v, lookupVal data "enrichment_sources" = some v → (pyLen v).isSome = true) :
    (score_enriched_data parse data).isOk = true ∧
    ∀ nm v, (nm, v) ∈ data → isMissing v = true →
      (nm, (0 : ℚ)) ∈ (report_or_default (score_enriched_data parse data)).field_confidences := by
  have hok := assess_data_quality_isOk parse data
    (calculate_category_confidences (analyze_fields data {})) hlen
  cases hq : assess_data_quality parse data (calculate_category_confidences (analyze_fields data {})) with
  | error e => rw [hq] at hok; cases hok
  | ok r2 =>
    have hscore : score_enriched_data parse data =
        .ok { generate_recommendations r2 with
              overall_confidence := calculate_overall_confidence (generate_recommendations r2) } := by
      simp only [score_enriched_data, hq]
    refine ⟨by rw [hscore]; rfl, ?_⟩
    intro nm v hmem hmiss
    rw [hscore]
    show (nm, (0 : ℚ)) ∈ (generate_recommendations r2).field_confidences
    rw [generate_recommendations_field_confidences,
      assess_data_quality_preserves_field_confidences parse data _ r2 hq,
      calculate_category_confidences_field_confidences,
      analyze_fields_field_confidences]
    refine List.mem_append_right _ ?_
    have hmem2 := List.mem_map_of_mem (fun p : String × PyVal =>
      (p.1, field_confidence_value p.1 p.2)) hmem
    simpa [field_confidence_value, hmiss] using hmem2

/-- Counterexample to claim C9 as stated: with `enrichment_sources` bound
to `None`, the call `len(sources)` in `_assess_data_quality` raises a
`TypeError`, so `score_enriched_data` does not return a report. -/
theorem score_enriched_data_raises_on_unsized_sources :
    (score_enriched_data no_parse [("enrichment_sources", PyVal.vnone)]).isOk = false := by
  with_unfolding_all rfl

/-- Witness for the amended claim C9 at a one-field mapping holding a
`None` value. -/
theorem score_enriched_data_total_and_missing_zero_witness :
    (∀ v, lookupVal [("founded_year", PyVal.vnone)] "enrichment_sources" = some v →
        (pyLen v).isSome = true) ∧
      (score_enriched_data no_parse [("founded_year", PyVal.vnone)]).isOk = true ∧
      ("founded_year", (0 : ℚ)) ∈
        (report_or_default (score_enriched_data no_parse [("founded_year", PyVal.vnone)])).field_confidences := by
  have hlen : ∀ v, lookupVal [("founded_year", PyVal.vnone)] "enrichment_sources" = some v →
      (pyLen v).isSome = true := by
    intro v hv
    rw [show lookupVal [("founded_year", PyVal.vnone)] "enrichment_sources" = none from by
      with_unfolding_all rfl] at hv
    cases hv
  obtain ⟨h1, h2⟩ := score_enriched_data_total_and_missing_zero no_parse
    [("founded_year", PyVal.vnone)] hlen
  exact ⟨hlen, h1, h2 "founded_year" PyVal.vnone (List.mem_singleton.mpr rfl) rfl⟩

/-- Fully populated enriched-data mapping: every weighted field is present
and truthy, all critical fields are filled, and three enrichment sources
are listed.  This drives the final overall confidence above one half. -/
def full_enriched_sample : List (String × PyVal) :=
  [("company_name", PyVal.vstr "TechCorp"),
   ("website", PyVal.vstr "https://techcorp.com"),
   ("industry", PyVal.vstr "Technology"),
   ("company_size", PyVal.vstr "51-200 employees"),
   ("tech_stack", PyVal.vlist
     [PyVal.vstr "react", PyVal.vstr "aws", PyVal.vstr "python", PyVal.vstr "postgresql",
      PyVal.vstr "docker", PyVal.vstr "kubernetes", PyVal.vstr "redis", PyVal.vstr "nginx",
      PyVal.vstr "terraform", PyVal.vstr "stripe", PyVal.vstr "segment"]),
   ("revenue_range", PyVal.vstr "$10M-$50M"),
   ("founded_year", PyVal.vnum 2015),
   ("headquarters", PyVal.vstr "New York"),
   ("automation_opportunities", PyVal.vlist
     [PyVal.vstr "CRM implementation", PyVal.vstr "Marketing automation", PyVal.vstr "DevOps pipeline"]),
   ("digital_maturity_score", PyVal.vnum 65),
   ("growth_signals", PyVal.vlist [PyVal.vstr "Active hiring"]),
   ("pain_indicators", PyVal.vlist [PyVal.vstr "Manual data entry"]),
   ("trigger_events", PyVal.vlist [PyVal.vstr "New funding round"]),
   ("competitors", PyVal.vlist [PyVal.vstr "Acme"]),
   ("recent_news", PyVal.vlist [PyVal.vstr "Product launch"]),
   ("social_metrics", PyVal.vlist [PyVal.vstr "followers"]),
   ("enrichment_sources", PyVal.vlist
     [PyVal.vstr "LinkedIn", PyVal.vstr "Website", PyVal.vstr "NewsAPI"])]

/-- Claim C3 (code bug evaluation): on the fully populated sample the
returned overall confidence is at least one half, yet the low-confidence
warning is in the report anyway, because `_generate_recommendations` runs
before the overall confidence is computed and therefore compares the
dataclass default of 0 against the 0.5 threshold. -/
theorem low_confidence_warning_emitted_despite_high_overall :
    (1 : ℚ)/2 ≤ (report_or_default (score_enriched_data no_parse full_enriched_sample)).overall_confidence ∧
      low_confidence_warning ∈
        (report_or_default (score_enriched_data no_parse full_enriched_sample)).confidence_warnings := by
  constructor
  · with_unfolding_all decide
  · with_unfolding_all decide

/-- An automation gap record as produced by `InefficiencyDetector` and
consumed by `SolutionArchitect.analyze` (only the `process` and
`gap_severity` keys are read there). -/
structure AutomationGap where
  process : String
  gap_severity : String

/-- A solution-catalog entry of `SolutionArchitect._load_solution_catalog`. -/
structure CatalogSolution where
  solution : String
  effort : String
  time_to_implement : String
  cost_min : ℚ
  cost_max : ℚ

/-- The five-entry solution catalog, in insertion order.  The recommended
tool lists are omitted: the analyzed claims never read them. -/
def solution_catalog : List (String × CatalogSolution) :=
  [("Manual sales tracking", ⟨"CRM Implementation", "medium", "4-8 weeks", 5000, 50000⟩),
   ("Email-only support", ⟨"Helpdesk System", "low", "2-4 weeks", 2000, 10000⟩),
   ("Manual scheduling", ⟨"Booking Automation", "low", "1 week", 500, 2000⟩),
   ("Cart abandonment", ⟨"Recovery Automation", "medium", "2-3 weeks", 1000, 5000⟩),
   ("Manual data entry", ⟨"RPA/Integration", "medium", "3-6 weeks", 3000, 20000⟩)]

/-- Solution lookup of `SolutionArchitect.analyze`: the first catalog entry
whose lowercased key is a substring of the lowercased process, with the
generic high-effort placeholder for unmatched processes. -/
def find_solution (process : String) : CatalogSolution :=
  match solution_catalog.find? (fun p => strContainsSub (str_to_lower process) (str_to_lower p.1)) with
  | some p => p.2
  | none => ⟨"Process Automation for " ++ process, "high", "8-12 weeks", 10000, 100000⟩

/-- One entry of the implementation sequence built by
`SolutionArchitect.analyze`. -/
structure SequenceEntry where
  automation : String
  priority : ℚ
deriving DecidableEq

/-- Priority score of one gap: 1 for high severity, 2 otherwise, reduced
by 0.5 when the mapped solution is low effort. -/
def gap_priority (g : AutomationGap) : ℚ :=
  let priority : ℚ := if g.gap_severity == "high" then 1 else 2
  if (find_solution g.process).effort == "low" then priority - 5/10 else priority

/-- The implementation sequence before sorting, one entry per gap in input
order. -/
def raw_sequence (gaps : List AutomationGap) : List SequenceEntry :=
  gaps.map fun g => ⟨(find_solution g.process).solution, gap_priority g⟩

/-- The sorted implementation sequence of `SolutionArchitect.analyze`:
Python `list.sort(key=...)` is a stable sort by the priority key, modelled
by the stable `List.mergeSort`. -/
def implementation_sequence (gaps : List AutomationGap) : List SequenceEntry :=
  (raw_sequence gaps).mergeSort (fun a b => decide (a.priority ≤ b.priority))

/-- Helper: the per-entry priority comparison is transitive. -/
theorem sequence_le_trans (a b c : SequenceEntry)
    (hab : decide (a.priority ≤ b.priority) = true)
    (hbc : decide (b.priority ≤ c.priority) = true) :
    decide (a.priority ≤ c.priority) = true := by
  simp only [decide_eq_true_eq] at *
  exact le_trans hab hbc

/-- Helper: the per-entry priority comparison is total. -/
theorem sequence_le_total (a b : SequenceEntry) :
    (decide (a.priority ≤ b.priority) || decide (b.priority ≤ a.priority)) = true := by
  simp only [Bool.or_eq_true, decide_eq_true_eq]
  exact le_total a.priority b.priority

/-- Claim C6: `SolutionArchitect.analyze` is deterministic, its
implementation sequence is sorted by non-decreasing priority (1 for
high-severity gaps, 2 otherwise, 0.5 less for low-effort solutions, as
built by `raw_sequence` in input order), and entries of equal priority
keep the order in which their gaps appeared in the input: filtering the
sorted sequence at any priority value gives exactly the filtered unsorted
sequence. -/
theorem implementation_sequence_sorted_stable (gaps : List AutomationGap) :
    implementation_sequence gaps = implementation_sequence gaps ∧
    (implementation_sequence gaps).Pairwise (fun a b => a.priority ≤ b.priority) ∧
    ∀ q : ℚ, (implementation_sequence gaps).filter (fun e => decide (e.priority = q)) =
      (raw_sequence gaps).filter (fun e => decide (e.priority = q)) := by
  refine ⟨rfl, ?_, ?_⟩
  · have := List.sorted_mergeSort sequence_le_trans sequence_le_total (raw_sequence gaps)
    exact this.imp (fun h => by simpa using h)
  · intro q
    set p : SequenceEntry → Bool := fun e => decide (e.priority = q) with hp
    set c := (raw_sequence gaps).filter p with hc
    have hcq : ∀ e ∈ c, e.priority = q := by
      intro e he
      have := List.of_mem_filter he
      simpa [hp] using this
    have hpair : c.Pairwise (fun a b => decide (a.priority ≤ b.priority) = true) := by
      refine List.pairwise_of_forall_mem_list ?_
      intro a ha b hb
      simp [hcq a ha, hcq b hb]
    have hsub : List.Sublist c ((raw_sequence gaps).mergeSort
        (fun a b => decide (a.priority ≤ b.priority))) :=
      List.sublist_mergeSort sequence_le_trans sequence_le_total hpair (List.filter_sublist _)
    have hself : c.filter p = c := List.filter_eq_self.mpr (fun a ha => by
      have := List.of_mem_filter ha
      simpa [hp] using this)
    have hsub2 : List.Sublist c ((implementation_sequence gaps).filter p) := by
      have := hsub.filter p
      rw [hself] at this
      exact this
    have hperm : ((implementation_sequence gaps).filter p).length = c.length := by
      have := (List.mergeSort_perm (raw_sequence gaps)
        (fun a b => decide (a.priority ≤ b.priority))).filter p
      exact this.length_eq
    exact (hsub2.eq_of_length hperm.symm).symm

/-- One phase of the implementation roadmap built by
`ReportCompiler.analyze`. -/
structure RoadmapPhase where
  phase : Nat
  title : String
  initiatives : List String

/-- Roadmap grouping of `ReportCompiler.analyze`: the implementation
sequence is split into quick wins (priority below 1.5), medium term
(1.5 to below 2.5) and long term (2.5 and above), and one phase is
emitted per nonempty bucket.  The expected-outcome strings are omitted:
the analyzed claims never read them. -/
def compile_roadmap (sequence : List SequenceEntry) : List RoadmapPhase :=
  let quick_wins := sequence.filter (fun s => decide (s.priority < 3/2))
  let medium_term := sequence.filter (fun s => decide (3/2 ≤ s.priority ∧ s.priority < 5/2))
  let long_term := sequence.filter (fun s => decide (5/2 ≤ s.priority))
  (if !quick_wins.isEmpty then
    [⟨1, "Quick Wins (Month 1-2)", quick_wins.map (fun q => q.automation)⟩] else []) ++
  (if !medium_term.isEmpty then
    [⟨2, "Core Automation (Month 3-6)", medium_term.map (fun m => m.automation)⟩] else []) ++
  (if !long_term.isEmpty then
    [⟨3, "Advanced Integration (Month 7-12)", long_term.map (fun l => l.automation)⟩] else [])

/-- Helper: every priority produced by the solution architect is one of
0.5, 1, 1.5 or 2. -/
theorem gap_priority_mem (g : AutomationGap) :
    gap_priority g = 5/10 ∨ gap_priority g = 1 ∨ gap_priority g = 3/2 ∨ gap_priority g = 2 := by
  unfold gap_priority
  split_ifs <;> norm_num

/-- Claim C10: every priority in the implementation sequence lies in the
set of four values 0.5, 1, 1.5, 2; consequently the long-term bucket
(priority at least 2.5) is empty, the roadmap never contains the phase
titled Advanced Integration (Month 7-12), and the emitted roadmap has at
most two phases. -/
theorem roadmap_has_at_most_two_phases (gaps : List AutomationGap) :
    (∀ e ∈ implementation_sequence gaps,
        e.priority = 5/10 ∨ e.priority = 1 ∨ e.priority = 3/2 ∨ e.priority = 2) ∧
    (implementation_sequence gaps).filter (fun s => decide (5/2 ≤ s.priority)) = [] ∧
    (∀ ph ∈ compile_roadmap (implementation_sequence gaps),
        ph.title ≠ "Advanced Integration (Month 7-12)") ∧
    (compile_roadmap (implementation_sequence gaps)).length ≤ 2 := by
  have hmem : ∀ e ∈ implementation_sequence gaps,
      e.priority = 5/10 ∨ e.priority = 1 ∨ e.priority = 3/2 ∨ e.priority = 2 := by
    intro e he
    unfold implementation_sequence at he
    have he2 : e ∈ raw_sequence gaps := List.mem_mergeSort.mp he
    obtain ⟨g, -, rfl⟩ := List.mem_map.mp he2
    exact gap_priority_mem g
  have hlong : (implementation_sequence gaps).filter (fun s => decide (5/2 ≤ s.priority)) = [] := by
    rw [List.filter_eq_nil_iff]
    intro e he
    rcases hmem e he with h | h | h | h <;> simp only [h, decide_eq_true_eq] <;> norm_num
  refine ⟨hmem, hlong, ?_, ?_⟩
  · intro ph hph
    unfold compile_roadmap at hph
    rw [hlong] at hph
    simp only [List.isEmpty_nil, Bool.not_true, Bool.false_eq_true, if_false,
      List.append_nil] at hph
    rcases List.mem_append.mp hph with h | h
    · split at h
      · simp only [List.mem_singleton] at h
        subst h
        exact (by decide : "Quick Wins (Month 1-2)" ≠ "Advanced Integration (Month 7-12)")
      · exact absurd h (List.not_mem_nil _)
    · split at h
      · simp only [List.mem_singleton] at h
        subst h
        exact (by decide : "Core Automation (Month 3-6)" ≠ "Advanced Integration (Month 7-12)")
      · exact absurd h (List.not_mem_nil _)
  · unfold compile_roadmap
    rw [hlong]
    simp only [List.isEmpty_nil, Bool.not_true, Bool.false_eq_true, if_false, List.append_nil]
    split_ifs <;> simp

/-- Witness for claim C10 at a single high-severity scheduling gap, whose
low-effort booking solution gets priority 0.5. -/
theorem roadmap_has_at_most_two_phases_witness :
    (⟨"Booking Automation", 5/10⟩ : SequenceEntry) ∈
        implementation_sequence [⟨"Manual scheduling", "high"⟩] ∧
      ((⟨"Booking Automation", 5/10⟩ : SequenceEntry).priority = 5/10 ∨
        (⟨"Booking Automation", 5/10⟩ : SequenceEntry).priority = 1 ∨
        (⟨"Booking Automation", 5/10⟩ : SequenceEntry).priority = 3/2 ∨
        (⟨"Booking Automation", 5/10⟩ : SequenceEntry).priority = 2) ∧
      (implementation_sequence [⟨"Manual scheduling", "high"⟩]).filter
          (fun s => decide (5/2 ≤ s.priority)) = [] ∧
      (compile_roadmap (implementation_sequence [⟨"Manual scheduling", "high"⟩])).length ≤ 2 := by
  have h := roadmap_has_at_most_two_phases [⟨"Manual scheduling", "high"⟩]
  have hm : (⟨"Booking Automation", 5/10⟩ : SequenceEntry) ∈
      implementation_sequence [⟨"Manual scheduling", "high"⟩] := by
    with_unfolding_all decide
  exact ⟨hm, h.1 _ hm, h.2.1, h.2.2.2⟩

/-- A recommended automation as consumed by `ROICalculator.analyze` (the
keys read there: `solution` and the `cost_estimate` range). -/
structure RecommendedAutomation where
  solution : String
  cost_min : ℚ
  cost_max : ℚ

/-- Employee-count estimate per company-size bucket
(`employee_estimates.get(company_size, 20)`). -/
def estimated_employees (company_size : String) : ℚ :=
  if company_size == "1-10 employees" then 5
  else if company_size == "11-50 employees" then 30
  else if company_size == "51-200 employees" then 125
  else if company_size == "201-1000 employees" then 500
  else if company_size == "1000+ employees" then 2000
  else if company_size == "Unknown" then 20
  else 20

/-- Weekly base hours saved per solution type
(`base_savings.get(solution, 10)`). -/
def base_time_savings (solution : String) : ℚ :=
  if solution == "CRM Implementation" then 10
  else if solution == "Helpdesk System" then 15
  else if solution == "Booking Automation" then 5
  else if solution == "Recovery Automation" then 8
  else if solution == "RPA/Integration" then 20
  else if solution == "Process Automation" then 10
  else 10

/-- Company-size scaling of `_estimate_time_savings`. -/
def size_scale_multiplier (employees : ℚ) : ℚ :=
  if employees < 10 then 5/10
  else if employees < 50 then 1
  else if employees < 200 then 2
  else 5

/-- Weekly hours saved by one automation
(`ROICalculator._estimate_time_savings`). -/
def estimate_time_savings (a : RecommendedAutomation) (employees : ℚ) : ℚ :=
  base_time_savings a.solution * size_scale_multiplier employees

/-- One entry of the savings breakdown built by `ROICalculator.analyze`. -/
structure SavingsBreakdownEntry where
  automation : String
  hours_saved_per_week : ℚ
  annual_cost_savings : ℚ
  implementation_cost : ℚ
deriving DecidableEq

/-- The quantities computed by `ROICalculator.analyze`.  The published
0.7-to-1.3 output ranges are affine images of these values and are
omitted. -/
structure ROIOutput where
  savings_breakdown : List SavingsBreakdownEntry
  total_time_savings : ℚ
  total_cost_savings : ℚ
  total_investment : ℚ
  payback_period : ℚ
  year_one_roi : ℚ
  five_year_npv : ℚ

/-- The `ROICalculator.analyze` computation: per automation, weekly hours
saved scaled by the size bucket, annual hours times the hourly rate
60000/2080, average implementation cost, then payback period, year-one
ROI and the 10-percent-discounted five-year NPV over the totals. -/
def roi_analyze (autos : List RecommendedAutomation) (company_size : String) : ROIOutput :=
  let employees := estimated_employees company_size
  let hourly_rate : ℚ := 60000 / 2080
  let savings_breakdown := autos.map fun a =>
    let hours_saved_per_week := estimate_time_savings a employees
    let annual_hours_saved := hours_saved_per_week * 52
    ({ automation := a.solution
       hours_saved_per_week := hours_saved_per_week
       annual_cost_savings := annual_hours_saved * hourly_rate
       implementation_cost := (a.cost_min + a.cost_max) / 2 } : SavingsBreakdownEntry)
  let total_time_savings := (savings_breakdown.map fun e => e.hours_saved_per_week * 52).sum
  let total_cost_savings := (savings_breakdown.map fun e => e.annual_cost_savings).sum
  let total_investment := (savings_breakdown.map fun e => e.implementation_cost).sum
  let payback_period := if total_cost_savings > 0 then total_investment / total_cost_savings * 12 else 999
  let year_one_roi :=
    if total_investment > 0 then (total_cost_savings - total_investment) / total_investment * 100 else 0
  let five_year_savings := ∑ year ∈ Finset.Icc 1 5, total_cost_savings / ((1 + 1/10 : ℚ)) ^ year
  { savings_breakdown := savings_breakdown
    total_time_savings := total_time_savings
    total_cost_savings := total_cost_savings
    total_investment := total_investment
    payback_period := payback_period
    year_one_roi := year_one_roi
    five_year_npv := five_year_savings - total_investment }

/-- Size-bucket multiplier as the specification words it: 0.5, 1.0, 2.0 or
5.0 per company-size bucket (via the employee estimates 5, 30, 125, 500,
2000 and the default 20). -/
def size_bucket_multiplier (company_size : String) : ℚ :=
  if company_size == "1-10 employees" then 5/10
  else if company_size == "11-50 employees" then 1
  else if company_size == "51-200 employees" then 2
  else if company_size == "201-1000 employees" then 5
  else if company_size == "1000+ employees" then 5
  else 1

/-- Weekly hours saved as the specification words it: fixed per-solution
base times the company-size bucket multiplier. -/
def spec_weekly_hours (a : RecommendedAutomation) (company_size : String) : ℚ :=
  base_time_savings a.solution * size_bucket_multiplier company_size

/-- Annual cost savings as the specification words it: weekly hours times
52 weeks times the hourly rate 60000/2080. -/
def spec_annual_savings (a : RecommendedAutomation) (company_size : String) : ℚ :=
  spec_weekly_hours a company_size * 52 * (60000 / 2080)

/-- Total annual savings over the recommended automations. -/
def spec_total_annual_savings (autos : List RecommendedAutomation) (company_size : String) : ℚ :=
  (autos.map fun a => spec_annual_savings a company_size).sum

/-- Total investment: the sum of the average implementation costs. -/
def spec_total_investment (autos : List RecommendedAutomation) : ℚ :=
  (autos.map fun a => (a.cost_min + a.cost_max) / 2).sum

/-- Helper: the employee-estimate composition collapses to the four-value
bucket multiplier of the specification. -/
theorem size_scale_multiplier_estimated_employees (company_size : String) :
    size_scale_multiplier (estimated_employees company_size) = size_bucket_multiplier company_size := by
  unfold size_scale_multiplier estimated_employees size_bucket_multiplier
  split_ifs <;> linarith

/-- Claim C7: `ROICalculator.analyze` computes, per recommended
automation, weekly hours saved as the fixed per-solution base scaled by
the company-size bucket multiplier (0.5, 1, 2 or 5), annual cost savings
as weekly hours times 52 times the hourly rate 60000/2080, the payback
period in months as total investment over total annual savings times 12,
and the five-year NPV as the 10-percent-discounted sum of five annual
savings minus the total investment. -/
theorem roi_analyze_formulas (autos : List RecommendedAutomation) (company_size : String)
    (h : 0 < spec_total_annual_savings autos company_size) :
    (roi_analyze autos company_size).savings_breakdown = (autos.map fun a =>
      ({ automation := a.solution
         hours_saved_per_week := spec_weekly_hours a company_size
         annual_cost_savings := spec_annual_savings a company_size
         implementation_cost := (a.cost_min + a.cost_max) / 2 } : SavingsBreakdownEntry)) ∧
    (roi_analyze autos company_size).total_cost_savings = spec_total_annual_savings autos company_size ∧
    (roi_analyze autos company_size).total_investment = spec_total_investment autos ∧
    (roi_analyze autos company_size).payback_period =
      spec_total_investment autos / spec_total_annual_savings autos company_size * 12 ∧
    (roi_analyze autos company_size).five_year_npv =
      (∑ year ∈ Finset.Icc 1 5,
        spec_total_annual_savings autos company_size / ((1 + 1/10 : ℚ)) ^ year)
        - spec_total_investment autos := by
  have hfun : (fun a : RecommendedAutomation =>
      let hours_saved_per_week := estimate_time_savings a (estimated_employees company_size)
      let annual_hours_saved := hours_saved_per_week * 52
      ({ automation := a.solution
         hours_saved_per_week := hours_saved_per_week
         annual_cost_savings := annual_hours_saved * (60000 / 2080)
         implementation_cost := (a.cost_min + a.cost_max) / 2 } : SavingsBreakdownEntry)) =
      (fun a : RecommendedAutomation =>
      ({ automation := a.solution
         hours_saved_per_week := spec_weekly_hours a company_size
         annual_cost_savings := spec_annual_savings a company_size
         implementation_cost := (a.cost_min + a.cost_max) / 2 } : SavingsBreakdownEntry)) := by
    funext a
    simp only [estimate_time_savings, spec_weekly_hours, spec_annual_savings,
      size_scale_multiplier_estimated_employees]
  have hbd : (roi_analyze autos company_size).savings_breakdown = (autos.map fun a =>
      ({ automation := a.solution
         hours_saved_per_week := spec_weekly_hours a company_size
         annual_cost_savings := spec_annual_savings a company_size
         implementation_cost := (a.cost_min + a.cost_max) / 2 } : SavingsBreakdownEntry)) := by
    simp only [roi_analyze]
    rw [hfun]
  have hcost : (roi_analyze autos company_size).total_cost_savings =
      spec_total_annual_savings autos company_size := by
    show ((roi_analyze autos company_size).savings_breakdown.map fun e => e.annual_cost_savings).sum = _
    rw [hbd, List.map_map]
    rfl
  have hinv : (roi_analyze autos company_size).total_investment = spec_total_investment autos := by
    show ((roi_analyze autos company_size).savings_breakdown.map fun e => e.implementation_cost).sum = _
    rw [hbd, List.map_map]
    rfl
  refine ⟨hbd, hcost, hinv, ?_, ?_⟩
  · show (if (roi_analyze autos company_size).total_cost_savings > 0 then
        (roi_analyze autos company_size).total_investment /
          (roi_analyze autos company_size).total_cost_savings * 12 else 999) = _
    rw [hcost, hinv, if_pos h]
  · show (∑ year ∈ Finset.Icc 1 5,
        (roi_analyze autos company_size).total_cost_savings / ((1 + 1/10 : ℚ)) ^ year) -
        (roi_analyze autos company_size).total_investment = _
    rw [hcost, hinv]

/-- Witness for claim C7 at one CRM automation for an 11-to-50-employee
company. -/
theorem roi_analyze_formulas_witness :
    0 < spec_total_annual_savings [⟨"CRM Implementation", 5000, 50000⟩] "11-50 employees" ∧
      ((roi_analyze [⟨"CRM Implementation", 5000, 50000⟩] "11-50 employees").savings_breakdown =
        [⟨"CRM Implementation",
          spec_weekly_hours ⟨"CRM Implementation", 5000, 50000⟩ "11-50 employees",
          spec_annual_savings ⟨"CRM Implementation", 5000, 50000⟩ "11-50 employees",
          (5000 + 50000) / 2⟩] ∧
       (roi_analyze [⟨"CRM Implementation", 5000, 50000⟩] "11-50 employees").total_cost_savings =
        spec_total_annual_savings [⟨"CRM Implementation", 5000, 50000⟩] "11-50 employees" ∧
       (roi_analyze [⟨"CRM Implementation", 5000, 50000⟩] "11-50 employees").total_investment =
        spec_total_investment [⟨"CRM Implementation", 5000, 50000⟩] ∧
       (roi_analyze [⟨"CRM Implementation", 5000, 50000⟩] "11-50 employees").payback_period =
        spec_total_investment [⟨"CRM Implementation", 5000, 50000⟩] /
          spec_total_annual_savings [⟨"CRM Implementation", 5000, 50000⟩] "11-50 employees" * 12 ∧
       (roi_analyze [⟨"CRM Implementation", 5000, 50000⟩] "11-50 employees").five_year_npv =
        (∑ year ∈ Finset.Icc 1 5,
          spec_total_annual_savings [⟨"CRM Implementation", 5000, 50000⟩] "11-50 employees" /
            ((1 + 1/10 : ℚ)) ^ year) -
          spec_total_investment [⟨"CRM Implementation", 5000, 50000⟩]) :=
  ⟨by with_unfolding_all decide,
   roi_analyze_formulas [⟨"CRM Implementation", 5000, 50000⟩] "11-50 employees"
     (by with_unfolding_all decide)⟩

/-- Benchmark figures of one `IndustryBaselineAgent` industry entry (the
pain-point and tech-stack string lists are omitted: the analyzed claims
never read them). -/
structure IndustryInfo where
  automation_maturity : ℚ
  avg_employee_productivity : ℚ

/-- The four-industry benchmark table, with the fallback to the
Technology entry for unmatched industries
(`industry_data.get(industry, industry_data["Technology"])`). -/
def industry_data_get (industry : String) : IndustryInfo :=
  if industry == "Technology" then ⟨7/10, 150000⟩
  else if industry == "E-commerce" then ⟨6/10, 120000⟩
  else if industry == "Healthcare" then ⟨4/10, 100000⟩
  else if industry == "Professional Services" then ⟨5/10, 180000⟩
  else ⟨7/10, 150000⟩

/-- Company-size multipliers of `IndustryBaselineAgent._calculate_baseline`
(`size_multipliers.get(company_size, 0.5)`). -/
def size_multipliers_get (company_size : String) : ℚ :=
  if company_size == "1-10 employees" then 3/10
  else if company_size == "11-50 employees" then 5/10
  else if company_size == "51-200 employees" then 7/10
  else if company_size == "201-1000 employees" then 9/10
  else if company_size == "1000+ employees" then 1
  else if company_size == "Unknown" then 5/10
  else 5/10

/-- The automation baseline of `_calculate_baseline`. -/
structure AutomationBaseline where
  expected_automation_level : ℚ
  potential_annual_savings : ℚ
  implementation_complexity : String

/-- The `_calculate_baseline` computation: size multiplier times 0.7 for
the expected level, 50000 times the multiplier for the savings, and the
complexity threshold at 0.7. -/
def calculate_baseline (company_size : String) : AutomationBaseline :=
  let multiplier := size_multipliers_get company_size
  { expected_automation_level := multiplier * (7/10)
    potential_annual_savings := 50000 * multiplier
    implementation_complexity := if multiplier > 7/10 then "high" else "medium" }

/-- The output of `IndustryBaselineAgent.analyze` read by the claims: the
industry benchmarks and the automation baseline. -/
structure IndustryBaselineOutput where
  benchmark_automation_maturity : ℚ
  benchmark_avg_productivity : ℚ
  automation_baseline : AutomationBaseline

/-- The `IndustryBaselineAgent.analyze` computation on the industry and
company-size strings of its input context. -/
def industry_baseline_analyze (industry company_size : String) : IndustryBaselineOutput :=
  let industry_info := industry_data_get industry
  { benchmark_automation_maturity := industry_info.automation_maturity
    benchmark_avg_productivity := industry_info.avg_employee_productivity
    automation_baseline := calculate_baseline company_size }

/-- Claim C8: for Healthcare with 11 to 50 employees, the baseline agent
reports automation maturity 0.4 and expected automation level
0.5 times 0.7, that is 0.35. -/
theorem industry_baseline_healthcare_small :
    (industry_baseline_analyze "Healthcare" "11-50 employees").benchmark_automation_maturity = 4/10 ∧
    (industry_baseline_analyze "Healthcare" "11-50 employees").automation_baseline.expected_automation_level
      = (5/10) * (7/10) ∧
    ((5 : ℚ)/10) * (7/10) = 35/100 := by
  refine ⟨?_, ?_, by norm_num⟩ <;> with_unfolding_all decide
